import Mathlib

/-!
Verification development for the IPTV channel speed-test engine
(`src/core/tester.py`, class `SpeedTester`).

The engine is embedded shallowly:
  * strings are Lean `String`s; string utilities (lower-casing, substring
    search, membership) are written as executable recursive functions on
    `List Char`;
  * the network is external input, modelled by inductive types
    (`NetBehavior`, `GetBehavior`) describing what the HEAD and GET
    requests do; exceptions escaping the probe are extra constructors of
    `ChanEvent`;
  * Python floats are embedded as `ℚ` (all arithmetic the engine performs
    on speeds and latencies is exact division and comparison);
  * the mutable tester state (`failed_ips`, `blocked_ips`, `ip_cooldown`,
    counters) is an explicit record threaded through the operations;
  * the asynchronous batch is linearised: per-channel processing is a pure
    step function folded over the channel list, and the concurrency
    admission discipline is modelled separately as a trace relation.
-/

/-! ## String utilities -/

/-- Lower-case every character of a string (models Python `str.lower`
on the ASCII range, which is all the engine compares). -/
def lowerS (s : String) : String :=
  ⟨s.data.map Char.toLower⟩

/-- Does list `s` start with list `p`? (models Python `str.startswith`). -/
def startsL : List Char → List Char → Bool
  | [], _ => true
  | _ :: _, [] => false
  | p :: ps, c :: cs => p == c && startsL ps cs

/-- Does list `s` contain `p` as a contiguous substring?
(models Python `in` on strings / the literal-only regex search). -/
def hasSub (p : List Char) : List Char → Bool
  | [] => p.isEmpty
  | c :: cs => startsL p (c :: cs) || hasSub p cs

/-- Add a URL to the failed-URL set (Python `set.add`): no-op when the
URL is already present. -/
def addUrl (failed : List String) (url : String) : List String :=
  if failed.contains url then failed else url :: failed

/-! ## URL parsing (`_extract_ip_from_url`, `_is_udp_url`) -/

/-- The characters after the first `//` of the URL, if any (the start of
the authority component, as `urllib.parse.urlparse` finds it). -/
def restAfterDslash : List Char → Option (List Char)
  | [] => none
  | '/' :: '/' :: rest => some rest
  | _ :: rest => restAfterDslash rest

/-- The `netloc` of a URL: the characters after the first `//` up to the
next `/`, `?` or `#` (models `urlparse(url).netloc`). -/
def urlNetloc (s : List Char) : List Char :=
  match restAfterDslash s with
  | none => []
  | some r => r.takeWhile (fun c => c ≠ '/' && c ≠ '?' && c ≠ '#')

/-- The characters after the last occurrence of `sep`, or the whole list
when `sep` is absent (models Python `s.split(sep)[-1]`). -/
def afterLast (sep : Char) (s : List Char) : List Char :=
  (s.reverse.takeWhile (fun c => c ≠ sep)).reverse

/-- `SpeedTester._extract_ip_from_url`: netloc, userinfo stripped, then
the bracketed literal for IPv6 and the part before the port otherwise.
The Python `except` branch (returning `"unknown"`) is unreachable in the
embedding because the extraction is total. -/
def extract_ip_from_url (url : String) : String :=
  let netloc := afterLast '@' (urlNetloc url.toList)
  if netloc.elem '[' && netloc.elem ']' then
    ⟨netloc.takeWhile (fun c => c ≠ ']') ++ [']']⟩
  else
    ⟨netloc.takeWhile (fun c => c ≠ ':')⟩

/-- `SpeedTester._is_udp_url`: the lower-cased URL starts with `udp://`
or `rtp://`, or the compiled pattern `/(rtp|udp)/` matches anywhere in
the lower-cased URL (the pattern is literal, so matching is exactly a
substring test). -/
def is_udp_url (url : String) : Bool :=
  let l := (lowerS url).toList
  startsL "udp://".toList l || startsL "rtp://".toList l ||
    (hasSub "/rtp/".toList l || hasSub "/udp/".toList l)

/-- The scheme of a URL per the spec's reading: the part before the
first `:`, lower-cased. Used only to state the spec's classification
rule, not by the engine. -/
def urlSchemeL (s : List Char) : List Char :=
  if s.elem ':' then s.takeWhile (fun c => c ≠ ':') else []

/-- The path component of a URL: after the authority, up to `?` or `#`.
Used only to state the spec's classification rule. -/
def urlPathL (s : List Char) : List Char :=
  match restAfterDslash s with
  | some r =>
      ((r.dropWhile (fun c => c ≠ '/' && c ≠ '?' && c ≠ '#')).takeWhile
        (fun c => c ≠ '?' && c ≠ '#'))
  | none =>
      ((s.dropWhile (fun c => c ≠ ':')).drop 1).takeWhile
        (fun c => c ≠ '?' && c ≠ '#')

/-- The spec's protocol classification, stated from the spec's words for
comparison with `is_udp_url`: UDP-class iff the scheme is `udp` or
`rtp`, or the PATH contains a `/rtp/` or `/udp/` segment
(case-insensitive). -/
def spec_is_udp_class (url : String) : Bool :=
  let l := (lowerS url).toList
  let scheme := urlSchemeL l
  (scheme == "udp".toList || scheme == "rtp".toList) ||
    (hasSub "/rtp/".toList (urlPathL l) || hasSub "/udp/".toList (urlPathL l))

/-- Case-insensitive name-vs-whitelist matching, stated from the spec's
words ("name match, case-insensitive") for comparison with
`is_in_white_list`. -/
def spec_whitelist_match (name : String) (white_list : List String) : Bool :=
  white_list.any (fun w => lowerS w == lowerS name)

/-! ## Data model -/

/-- Modelled from the spec: the Channel record produced by the parser
(`src/core/models.py`, not present under `src/`). §3: `name`, `url`,
`category` (sentinel default), optional `logo`, `status` (the engine
assigns the strings used by `tester.py`), `response_time` (ms),
`download_speed` (KB/s). -/
structure Channel where
  name : String
  url : String
  category : String
  logo : Option String
  status : String
  response_time : ℚ
  download_speed : ℚ
deriving DecidableEq

/-- The configuration values `SpeedTester.__init__` reads (after the
clamping / fallback computations of lines 39-71 of `tester.py`). -/
structure TesterConfig where
  http_timeout : ℚ
  udp_timeout : ℚ
  min_download_speed : ℚ
  min_udp_download_speed : ℚ
  max_http_latency : ℚ
  max_udp_latency : ℚ
  max_download_size : Nat
  max_failures_per_ip : Nat
deriving DecidableEq

/-- The mutable per-instance state of `SpeedTester`: the IP-guard maps
(`failed_ips` as a total counter function, defaultdict-style;
`blocked_ips`; `ip_cooldown`) and the counters. -/
structure TesterState where
  failed_ips : String → Nat
  blocked_ips : List String
  ip_cooldown : String → Option ℚ
  active_tasks : Nat
  success_count : Nat

/-- The state right after `SpeedTester.__init__` (lines 67-81):
empty guard maps, zero counters. -/
def initState : TesterState :=
  { failed_ips := fun _ => 0
    blocked_ips := []
    ip_cooldown := fun _ => none
    active_tasks := 0
    success_count := 0 }

/-- The defaults of `tester.py` for `timeout = 5.0`,
`min_download_speed = 100.0` and no config file: `udp_timeout =
max(0.5, 5*0.3)`, `min_udp_download_speed = 30`, `max_http_latency =
1000`, `max_udp_latency = 300`, `max_download_size = 100*1024`,
`max_failures_per_ip = 5`. -/
def defaultConfig : TesterConfig :=
  { http_timeout := 5
    udp_timeout := 3/2
    min_download_speed := 100
    min_udp_download_speed := 30
    max_http_latency := 1000
    max_udp_latency := 300
    max_download_size := 100 * 1024
    max_failures_per_ip := 5 }

/-! ## Network behaviour (the external input of one probe) -/

/-- What the GET request of the throughput phase does: times out, fails
with a client error, fails with another exception, or delivers a body as
a list of chunk sizes (each at most 4096 bytes, `iter_chunked(4096)`)
over a total elapsed time. -/
inductive GetBehavior where
  | getTimeout
  | getClientError
  | getOtherError
  | chunks (sizes : List Nat) (duration : ℚ)
deriving DecidableEq

/-- What the HEAD request of the latency phase does; on completion it
carries the HTTP status, the measured latency in milliseconds, and the
behaviour of the subsequent GET (consulted only when phase 1 passes). -/
inductive NetBehavior where
  | headTimeout
  | headClientError
  | headOtherError
  | headOk (status : Nat) (latency : ℚ) (get : GetBehavior)
deriving DecidableEq

/-- The event driving one channel through `_test_single_channel`:
either the probe runs with the given network behaviour (`_unified_test`
catches every exception internally, so the probe call itself never
raises), or an exception of the given kind escapes the body of
`_test_single_channel` some other way (lines 224-229), or an exception
escapes `_test_single_channel` entirely and is caught by
`_test_single_channel_limited` (lines 186-189). -/
inductive ChanEvent where
  | probe (nb : NetBehavior)
  | timeoutExc
  | clientExc
  | otherExc
  | wrapperExc
deriving DecidableEq

/-- Which branch of the per-channel pipeline classified the channel
(`offlineFail` carries the reason string built by `_handle_failure` and
the probe's speed and latency). -/
inductive Outcome where
  | whitelisted
  | blockedSkip
  | online (speed latency : ℚ)
  | offlineFail (reason : String) (speed latency : ℚ)
  | offlineTimeout
  | offlineClientErr
  | offlineOtherErr
  | offlineWrapper
deriving DecidableEq

/-! ## The probe (`_unified_test`) -/

/-- The loop of lines 256-261: accumulate chunk lengths, stopping as
soon as the accumulated size reaches `max_download_size`. -/
def readLoop (maxSize : Nat) (acc : Nat) : List Nat → Nat
  | [] => acc
  | c :: cs =>
      let acc2 := acc + c
      if maxSize ≤ acc2 then acc2 else readLoop maxSize acc2 cs

/-- Lines 252-265: total bytes read, then
`speed = content_size / duration / 1024 if duration > 0 else 0` and
`speed >= min_speed` as the success flag. -/
def throughputPhase (maxSize : Nat) (minSpeed : ℚ) (sizes : List Nat)
    (duration : ℚ) : Bool × ℚ :=
  let content := readLoop maxSize 0 sizes
  let speed : ℚ := if 0 < duration then (content : ℚ) / duration / 1024 else 0
  (decide (minSpeed ≤ speed), speed)

/-- Lines 237-242: the protocol class of the URL selects the timeout,
minimum download speed and maximum latency thresholds. -/
def classThresholds (cfg : TesterConfig) (url : String) : ℚ × ℚ × ℚ :=
  if is_udp_url url then
    (cfg.udp_timeout, cfg.min_udp_download_speed, cfg.max_udp_latency)
  else
    (cfg.http_timeout, cfg.min_download_speed, cfg.max_http_latency)

/-- `SpeedTester._unified_test` (lines 231-272): HEAD latency phase,
short-circuiting on bad status or excessive latency, then the GET
throughput phase; every timeout / client error / other exception inside
the body is caught and turned into `(False, 0.0, 0.0)`. -/
def unified_test (cfg : TesterConfig) (url : String) (nb : NetBehavior) :
    Bool × ℚ × ℚ :=
  let minSpeed := (classThresholds cfg url).2.1
  let maxLatency := (classThresholds cfg url).2.2
  match nb with
  | .headTimeout => (false, 0, 0)
  | .headClientError => (false, 0, 0)
  | .headOtherError => (false, 0, 0)
  | .headOk status latency get =>
      if maxLatency < latency ∨ status ≠ 200 then
        (false, 0, latency)
      else
        match get with
        | .getTimeout => (false, 0, 0)
        | .getClientError => (false, 0, 0)
        | .getOtherError => (false, 0, 0)
        | .chunks sizes duration =>
            let (ok, speed) :=
              throughputPhase cfg.max_download_size minSpeed sizes duration
            (ok, speed, latency)

/-! ## Result classification (`_handle_*`) -/

/-- Increment the failure counter of one host
(`self.failed_ips[ip] += 1` on a defaultdict). -/
def bumpFail (f : String → Nat) (ip : String) : String → Nat :=
  fun h => if h = ip then f h + 1 else f h

/-- The reason string of `_handle_failure` (lines 303-311):
`"速度不足"` (insufficient speed) if `speed > 0 and speed < min_speed`,
else `"延迟过高"` (latency exceeded) if `latency > max_latency`,
else `"连接失败"` (connection failed). -/
def failureReason (minSpeed maxLatency speed latency : ℚ) : String :=
  if 0 < speed ∧ speed < minSpeed then "速度不足"
  else if maxLatency < latency then "延迟过高"
  else "连接失败"

/-- The result of pushing one channel through the pipeline: the updated
tester state, the updated failed-URL set, the mutated channel, and which
branch classified it. -/
structure StepResult where
  state : TesterState
  failed : List String
  channel : Channel
  outcome : Outcome

/-- `_handle_success` (lines 274-289): bump `success_count`, set the
channel online with its measured latency and speed. -/
def handle_success (st : TesterState) (ch : Channel) (failed : List String)
    (speed latency : ℚ) : StepResult :=
  { state := { st with success_count := st.success_count + 1 }
    failed := failed
    channel := { ch with
                 status := "online"
                 response_time := latency
                 download_speed := speed }
    outcome := .online speed latency }

/-- `_handle_failure` (lines 291-318): add the URL to the failed set,
set the channel offline, bump the host's failure counter, and build the
reason from the channel's protocol-class thresholds. `blocked_ips` is
not touched. -/
def handle_failure (cfg : TesterConfig) (st : TesterState) (ch : Channel)
    (failed : List String) (speed latency : ℚ) : StepResult :=
  let ip := extract_ip_from_url ch.url
  let minSpeed := if is_udp_url ch.url then cfg.min_udp_download_speed
                  else cfg.min_download_speed
  let maxLatency := if is_udp_url ch.url then cfg.max_udp_latency
                    else cfg.max_http_latency
  { state := { st with failed_ips := bumpFail st.failed_ips ip }
    failed := addUrl failed ch.url
    channel := { ch with status := "offline" }
    outcome := .offlineFail (failureReason minSpeed maxLatency speed latency)
                 speed latency }

/-- `_handle_timeout` (lines 320-333): add the URL to the failed set,
set the channel offline, bump the host's failure counter. -/
def handle_timeout (st : TesterState) (ch : Channel) (failed : List String) :
    StepResult :=
  { state := { st with
      failed_ips := bumpFail st.failed_ips (extract_ip_from_url ch.url) }
    failed := addUrl failed ch.url
    channel := { ch with status := "offline" }
    outcome := .offlineTimeout }

/-- `_handle_client_error` (lines 335-349): same updates, different log
tag. -/
def handle_client_error (st : TesterState) (ch : Channel)
    (failed : List String) : StepResult :=
  { state := { st with
      failed_ips := bumpFail st.failed_ips (extract_ip_from_url ch.url) }
    failed := addUrl failed ch.url
    channel := { ch with status := "offline" }
    outcome := .offlineClientErr }

/-- `_handle_error` (lines 351-365): same updates, different log tag. -/
def handle_error (st : TesterState) (ch : Channel) (failed : List String) :
    StepResult :=
  { state := { st with
      failed_ips := bumpFail st.failed_ips (extract_ip_from_url ch.url) }
    failed := addUrl failed ch.url
    channel := { ch with status := "offline" }
    outcome := .offlineOtherErr }

/-! ## Per-channel pipeline -/

/-- `SpeedTester._is_in_white_list` (lines 388-394): false for an empty
whitelist, otherwise `channel.name.lower() in white_list` — only the
channel's name is lower-cased, the whitelist entries are compared
verbatim. -/
def is_in_white_list (ch : Channel) (white_list : List String) : Bool :=
  if white_list.isEmpty then false
  else white_list.contains (lowerS ch.name)

/-- `SpeedTester._test_single_channel` (lines 197-229): whitelist
short-circuit; then the blocked check — note the source tests membership
of the full `channel.url` in `blocked_ips`; then the probe, dispatching
to the success / failure handlers, with the three `except` branches for
exceptions escaping the body some other way. -/
def test_single_channel (cfg : TesterConfig) (st : TesterState)
    (failed : List String) (white_list : List String) (ch : Channel)
    (ev : ChanEvent) : StepResult :=
  if is_in_white_list ch white_list then
    { state := st, failed := failed
      channel := { ch with status := "online" }, outcome := .whitelisted }
  else if st.blocked_ips.contains ch.url then
    { state := st, failed := addUrl failed ch.url
      channel := { ch with status := "offline" }, outcome := .blockedSkip }
  else
    match ev with
    | .probe nb =>
        let r := unified_test cfg ch.url nb
        if r.1 then handle_success st ch failed r.2.1 r.2.2
        else handle_failure cfg st ch failed r.2.1 r.2.2
    | .timeoutExc => handle_timeout st ch failed
    | .clientExc => handle_client_error st ch failed
    | .otherExc => handle_error st ch failed
    | .wrapperExc => handle_error st ch failed

/-- `SpeedTester._test_single_channel_limited` (lines 182-195): wraps
`_test_single_channel`; an exception escaping it is caught, the URL
added to the failed set and the channel set offline. -/
def test_single_channel_limited (cfg : TesterConfig) (st : TesterState)
    (failed : List String) (white_list : List String) (ch : Channel)
    (ev : ChanEvent) : StepResult :=
  match ev with
  | .wrapperExc =>
      { state := st
        failed := addUrl failed ch.url
        channel := { ch with status := "offline" }
        outcome := .offlineWrapper }
  | _ => test_single_channel cfg st failed white_list ch ev

/-- The batch of `test_channels` / `_process_batch_with_limits`,
linearised: each channel (paired with the network behaviour its probe
meets) is pushed through `_test_single_channel_limited` in order,
threading the tester state and the failed-URL set; the list of mutated
channels with their classification branches is returned. -/
def process_batch (cfg : TesterConfig) (white_list : List String) :
    TesterState → List String → List (Channel × ChanEvent) →
    TesterState × List String × List (Channel × Outcome)
  | st, failed, [] => (st, failed, [])
  | st, failed, (ch, ev) :: rest =>
      let r := test_single_channel_limited cfg st failed white_list ch ev
      let rest2 := process_batch cfg white_list r.state r.failed rest
      (rest2.1, rest2.2.1, (r.channel, r.outcome) :: rest2.2.2)

/-! ## Concurrency admission (`__init__` clamping and
`_process_batch_with_limits` / `_test_single_channel_limited` slots) -/

/-- Lines 30-36: on Windows (`os.name == 'nt'`) the concurrency is
`min(concurrency, 30)`; otherwise `max(1, min(concurrency, 100))`. -/
def clampConcurrency (isWindows : Bool) (concurrency : Nat) : Nat :=
  if isWindows then min concurrency 30 else max 1 (min concurrency 100)

/-- Lines 32-33: the Windows warning is emitted exactly when the
requested concurrency was reduced. -/
def windowsWarning (concurrency : Nat) : Bool :=
  decide (min concurrency 30 < concurrency)

/-- One scheduler event: a probe is admitted (lines 162-166, the counter
is incremented under the condition once `active < max`), or a probe
completes and releases its slot (lines 192-194). -/
inductive SchedEv where
  | acquire
  | release
deriving DecidableEq

/-- The effect of one scheduler event on the active-task counter. -/
def schedStep (a : Nat) : SchedEv → Nat
  | .acquire => a + 1
  | .release => a - 1

/-- The active-task counter after a sequence of events. -/
def activeAfter (a : Nat) (es : List SchedEv) : Nat :=
  es.foldl schedStep a

/-- The traces the scheduler can generate: an admission happens only
when the counter is strictly below the limit (`wait_for` on line 163
blocks otherwise), and a release only when a probe is active. -/
def validTrace (limit : Nat) : Nat → List SchedEv → Bool
  | _, [] => true
  | a, .acquire :: es => decide (a < limit) && validTrace limit (a + 1) es
  | a, .release :: es => decide (0 < a) && validTrace limit (a - 1) es

/-! ## `clear_resources` -/

/-- `SpeedTester.clear_resources` (lines 428-434): clear `failed_ips`,
`blocked_ips` and `ip_cooldown`, zero the active-task counter
(`gc.collect()` has no model-visible effect). -/
def clear_resources (st : TesterState) : TesterState :=
  { st with
    failed_ips := fun _ => 0
    blocked_ips := []
    ip_cooldown := fun _ => none
    active_tasks := 0 }

/-! ## Helper lemmas -/

/-- After `addUrl` the URL is in the failed set. -/
theorem contains_addUrl (failed : List String) (u : String) :
    (addUrl failed u).contains u = true := by
  unfold addUrl
  split
  · assumption
  · simp [List.contains_cons]

/-- `bumpFail` increments exactly the bumped host's counter. -/
theorem bumpFail_self (f : String → Nat) (ip : String) :
    bumpFail f ip ip = f ip + 1 := by
  simp [bumpFail]

/-- No per-channel step touches `blocked_ips`. -/
theorem step_blocked_ips (cfg : TesterConfig) (st : TesterState)
    (failed : List String) (wl : List String) (ch : Channel) (ev : ChanEvent) :
    (test_single_channel_limited cfg st failed wl ch ev).state.blocked_ips =
      st.blocked_ips := by
  cases ev <;>
    simp only [test_single_channel_limited, test_single_channel,
      handle_success, handle_failure, handle_timeout, handle_client_error,
      handle_error] <;>
    split_ifs <;> rfl

/-- The whole batch leaves `blocked_ips` unchanged. -/
theorem batch_blocked_ips (cfg : TesterConfig) (wl : List String) :
    ∀ (batch : List (Channel × ChanEvent)) (st : TesterState)
      (failed : List String),
      (process_batch cfg wl st failed batch).1.blocked_ips = st.blocked_ips := by
  intro batch
  induction batch with
  | nil => intro st failed; rfl
  | cons p rest ih =>
      intro st failed
      obtain ⟨ch, ev⟩ := p
      simp only [process_batch]
      rw [ih, step_blocked_ips]

/-- With an empty blocked set the blocked-host branch is never taken. -/
theorem step_not_blockedSkip (cfg : TesterConfig) (st : TesterState)
    (failed : List String) (wl : List String) (ch : Channel) (ev : ChanEvent)
    (hb : st.blocked_ips = []) :
    (test_single_channel_limited cfg st failed wl ch ev).outcome ≠
      Outcome.blockedSkip := by
  cases ev <;>
    simp only [test_single_channel_limited, test_single_channel,
      handle_success, handle_failure, handle_timeout, handle_client_error,
      handle_error, hb] <;>
    (try split_ifs) <;> simp_all

/-- Every per-channel step leaves the channel `online` or `offline`. -/
theorem step_status_terminal (cfg : TesterConfig) (st : TesterState)
    (failed : List String) (wl : List String) (ch : Channel) (ev : ChanEvent) :
    (test_single_channel_limited cfg st failed wl ch ev).channel.status =
        "online" ∨
      (test_single_channel_limited cfg st failed wl ch ev).channel.status =
        "offline" := by
  cases ev <;>
    simp only [test_single_channel_limited, test_single_channel,
      handle_success, handle_failure, handle_timeout, handle_client_error,
      handle_error] <;>
    (try split_ifs) <;> simp

/-- On a batch started with an empty blocked set, no channel's outcome is
the blocked-host branch. -/
theorem batch_not_blockedSkip (cfg : TesterConfig) (wl : List String) :
    ∀ (batch : List (Channel × ChanEvent)) (st : TesterState)
      (failed : List String), st.blocked_ips = [] →
      ((process_batch cfg wl st failed batch).2.2.all
        (fun p => decide (p.2 ≠ Outcome.blockedSkip))) = true := by
  intro batch
  induction batch with
  | nil => intro st failed _; rfl
  | cons p rest ih =>
      intro st failed hb
      obtain ⟨ch, ev⟩ := p
      simp only [process_batch, List.all_cons, Bool.and_eq_true]
      constructor
      · simpa using step_not_blockedSkip cfg st failed wl ch ev hb
      · exact ih _ _ (by rw [step_blocked_ips]; exact hb)

/-- After a batch, every processed channel is `online` or `offline`. -/
theorem batch_status_terminal (cfg : TesterConfig) (wl : List String) :
    ∀ (batch : List (Channel × ChanEvent)) (st : TesterState)
      (failed : List String),
      ((process_batch cfg wl st failed batch).2.2.all
        (fun p => p.1.status == "online" || p.1.status == "offline")) = true := by
  intro batch
  induction batch with
  | nil => intro st failed; rfl
  | cons p rest ih =>
      intro st failed
      obtain ⟨ch, ev⟩ := p
      simp only [process_batch, List.all_cons, Bool.and_eq_true]
      refine ⟨?_, ih _ _⟩
      rcases step_status_terminal cfg st failed wl ch ev with h | h <;> simp [h]

/-- `readLoop` overshoots the cap by less than one chunk: starting below
the cap with chunks of at most `k` bytes, the total read stays below
`maxSize + k`. -/
theorem readLoop_lt (maxSize k : Nat) :
    ∀ (sizes : List Nat) (acc : Nat), (∀ c ∈ sizes, c ≤ k) →
      acc < maxSize → readLoop maxSize acc sizes < maxSize + k := by
  intro sizes
  induction sizes with
  | nil => intro acc _ hacc; simpa [readLoop] using Nat.lt_of_lt_of_le hacc (Nat.le_add_right _ _)
  | cons c cs ih =>
      intro acc hall hacc
      have hc : c ≤ k := hall c (by simp)
      simp only [readLoop]
      split
      · omega
      · exact ih (acc + c) (fun d hd => hall d (by simp [hd])) (by omega)

/-- Once the running total has reached the cap, later chunks are never
read: appending more chunks does not change the result. -/
theorem readLoop_stops (maxSize : Nat) (l2 : List Nat) :
    ∀ (l1 : List Nat) (acc : Nat), acc < maxSize →
      maxSize ≤ readLoop maxSize acc l1 →
      readLoop maxSize acc (l1 ++ l2) = readLoop maxSize acc l1 := by
  intro l1
  induction l1 with
  | nil => intro acc hacc hres; simp [readLoop] at hres; omega
  | cons c cs ih =>
      intro acc hacc hres
      simp only [readLoop, List.cons_append]
      split
      · rfl
      · rename_i hlt
        simp only [readLoop] at hres
        rw [if_neg hlt] at hres
        exact ih (acc + c) (by omega) hres

/-- The active-task counter never exceeds the limit along a valid
scheduler trace. -/
theorem validTrace_bound (limit : Nat) :
    ∀ (es : List SchedEv) (a n : Nat), a ≤ limit →
      validTrace limit a es = true → activeAfter a (es.take n) ≤ limit := by
  intro es
  induction es with
  | nil => intro a n ha _; simp [activeAfter, ha]
  | cons e es ih =>
      intro a n ha hv
      cases n with
      | zero => simpa [activeAfter] using ha
      | succ n =>
          cases e with
          | acquire =>
              simp only [validTrace, Bool.and_eq_true, decide_eq_true_eq] at hv
              simpa [activeAfter, schedStep, List.take_succ_cons] using
                ih (a + 1) n hv.1 hv.2
          | release =>
              simp only [validTrace, Bool.and_eq_true, decide_eq_true_eq] at hv
              have : a - 1 ≤ limit := by omega
              simpa [activeAfter, schedStep, List.take_succ_cons] using
                ih (a - 1) n this hv.2

/-! ## Claim theorems -/

/-- A batch of six channels on the single host `9.9.9.9`, every probe
failing (HEAD times out). With `max_failures_per_ip = 5` the spec says
the host must be blocked after the fifth failure and the sixth channel
classified via the blocked-host path. -/
def c1FailingBatch : List (Channel × ChanEvent) :=
  (List.range 6).map
    (fun i =>
      (⟨"s" ++ toString i, "http://9.9.9.9/s" ++ toString i, "未分类", none,
        "unknown", 0, 0⟩,
       ChanEvent.probe NetBehavior.headTimeout))

/-- C1: the code contradicts the claim (and the spec's `record_failure`
description): `_handle_failure` only increments `failed_ips` and never
adds the host to `blocked_ips` (`max_failures_per_ip` is read in
`__init__` and never consulted again), so after five failures on host
`9.9.9.9` the blocked set is still empty, and the sixth channel on that
host is probed and classified through the ordinary failure path
(`offlineFail`, reason "连接失败"), not through the blocked-host path. -/
theorem c1_host_never_blocked :
    (process_batch defaultConfig [] initState [] c1FailingBatch).1.blocked_ips
        = []
      ∧ (process_batch defaultConfig [] initState []
          c1FailingBatch).1.failed_ips "9.9.9.9" = 6
      ∧ ((process_batch defaultConfig [] initState []
          c1FailingBatch).2.2.map Prod.snd) =
          List.replicate 6 (Outcome.offlineFail "连接失败" 0 0) := by
  decide

/-- C2: no engine operation ever adds to `blocked_ips`: a per-channel
step leaves it unchanged, `clear_resources` empties it, and for a batch
started with an empty blocked set the blocked-host branch (membership of
the full channel URL in `blocked_ips`) is never taken. -/
theorem c2_blocked_ips_never_added :
    ∀ (cfg : TesterConfig) (st : TesterState) (failed wl : List String)
      (ch : Channel) (ev : ChanEvent) (f : String → Nat)
      (cd : String → Option ℚ) (a s : Nat)
      (batch : List (Channel × ChanEvent)),
      (test_single_channel_limited cfg st failed wl ch ev).state.blocked_ips =
          st.blocked_ips
        ∧ (clear_resources st).blocked_ips = []
        ∧ (process_batch cfg wl ⟨f, [], cd, a, s⟩ failed batch).1.blocked_ips
            = []
        ∧ ((process_batch cfg wl ⟨f, [], cd, a, s⟩ failed batch).2.2.all
            (fun p => decide (p.2 ≠ Outcome.blockedSkip))) = true := by
  intro cfg st failed wl ch ev f cd a s batch
  exact ⟨step_blocked_ips cfg st failed wl ch ev, rfl,
    batch_blocked_ips cfg wl batch ⟨f, [], cd, a, s⟩ failed,
    batch_not_blockedSkip cfg wl batch ⟨f, [], cd, a, s⟩ failed rfl⟩

/-- C3: after a batch, every channel in the returned list has status
`online` or `offline` — whatever the initial state, the whitelist and
the per-channel events (probe success, probe failure, any exception). -/
theorem c3_terminal_status :
    ∀ (cfg : TesterConfig) (wl : List String) (st : TesterState)
      (failed : List String) (batch : List (Channel × ChanEvent)),
      ((process_batch cfg wl st failed batch).2.2.all
        (fun p => p.1.status == "online" || p.1.status == "offline")) = true :=
  fun cfg wl st failed batch => batch_status_terminal cfg wl batch st failed

/-- C10: `clear_resources` zeroes every failure counter, empties the
blocked set and the cooldown map and resets the active-task counter; it
is idempotent, and on the cleared state no channel can be classified via
the blocked-host branch. -/
theorem c10_clear_resources_reset :
    ∀ (st : TesterState) (h : String) (cfg : TesterConfig)
      (failed wl : List String) (ch : Channel) (ev : ChanEvent),
      clear_resources (clear_resources st) = clear_resources st
        ∧ (clear_resources st).failed_ips h = 0
        ∧ (clear_resources st).blocked_ips = []
        ∧ (clear_resources st).ip_cooldown h = none
        ∧ (clear_resources st).active_tasks = 0
        ∧ (test_single_channel_limited cfg (clear_resources st) failed wl ch
            ev).outcome ≠ Outcome.blockedSkip := by
  intro st h cfg failed wl ch ev
  exact ⟨rfl, rfl, rfl, rfl, rfl,
    step_not_blockedSkip cfg (clear_resources st) failed wl ch ev rfl⟩

/-- The network behaviours in which the probe encounters a timeout: the
HEAD request times out, or the HEAD passes (status 200, latency within
the class threshold) and the GET request times out. -/
def isTimeoutBehavior (cfg : TesterConfig) (url : String) :
    NetBehavior → Bool
  | .headTimeout => true
  | .headOk status latency .getTimeout =>
      status == 200 && decide (latency ≤ (classThresholds cfg url).2.2)
  | _ => false

/-- A timeout anywhere inside `_unified_test` is caught by its own
handlers (lines 267-268) and becomes the plain failed result
`(False, 0.0, 0.0)` — the `asyncio.TimeoutError` branch of
`_test_single_channel` never sees it. -/
theorem unified_test_timeout (cfg : TesterConfig) (url : String)
    (nb : NetBehavior) (h : isTimeoutBehavior cfg url nb = true) :
    unified_test cfg url nb = (false, 0, 0) := by
  cases nb with
  | headTimeout => rfl
  | headClientError => simp [isTimeoutBehavior] at h
  | headOtherError => simp [isTimeoutBehavior] at h
  | headOk s lat g =>
      cases g with
      | getTimeout =>
          simp only [isTimeoutBehavior, Bool.and_eq_true, beq_iff_eq,
            decide_eq_true_eq] at h
          obtain ⟨hs, hlat⟩ := h
          simp only [unified_test, hs]
          rw [if_neg]
          simp [not_lt.mpr hlat]
      | getClientError => simp [isTimeoutBehavior] at h
      | getOtherError => simp [isTimeoutBehavior] at h
      | chunks sizes duration => simp [isTimeoutBehavior] at h

/-- A sample HTTP channel used to instantiate general theorems. -/
def sampleChannel : Channel :=
  ⟨"ch1", "http://9.9.9.9/a", "未分类", none, "unknown", 0, 0⟩

/-- C4 counterexample: a channel whose probe encounters a timeout is NOT
classified with the distinct "timeout" reason: the probe converts the
timeout into `(False, 0.0, 0.0)`, `_handle_failure` runs, and the reason
is "连接失败" ("connection failed"); `_handle_timeout` (the branch whose
log tag is the distinct timeout reason) is not reached. -/
theorem c4_counterexample :
    (test_single_channel defaultConfig initState [] [] sampleChannel
        (ChanEvent.probe NetBehavior.headTimeout)).outcome =
        Outcome.offlineFail "连接失败" 0 0
      ∧ (test_single_channel defaultConfig initState [] [] sampleChannel
          (ChanEvent.probe NetBehavior.headTimeout)).outcome ≠
          Outcome.offlineTimeout := by
  decide

/-- C4 amended: for every channel whose probe encounters a timeout (in
either phase), the channel is classified offline, its URL is added to
the failed-URL set and the host's failure counter is incremented — but
the failure reason is "连接失败" ("connection failed"), because
`_unified_test` swallows the timeout into a plain failed result before
`_handle_timeout` could distinguish it. -/
theorem c4_timeout_is_connection_failed :
    ∀ (cfg : TesterConfig) (st : TesterState) (failed wl : List String)
      (ch : Channel) (nb : NetBehavior),
      is_in_white_list ch wl = false →
      st.blocked_ips.contains ch.url = false →
      isTimeoutBehavior cfg ch.url nb = true →
      0 ≤ (if is_udp_url ch.url then cfg.max_udp_latency
           else cfg.max_http_latency) →
      (test_single_channel cfg st failed wl ch
          (ChanEvent.probe nb)).channel.status = "offline"
        ∧ (test_single_channel cfg st failed wl ch
            (ChanEvent.probe nb)).failed.contains ch.url = true
        ∧ (test_single_channel cfg st failed wl ch
            (ChanEvent.probe nb)).state.failed_ips (extract_ip_from_url ch.url)
            = st.failed_ips (extract_ip_from_url ch.url) + 1
        ∧ (test_single_channel cfg st failed wl ch
            (ChanEvent.probe nb)).outcome =
            Outcome.offlineFail "连接失败" 0 0 := by
  intro cfg st failed wl ch nb hwl hbl hto hlat
  have hr := unified_test_timeout cfg ch.url nb hto
  have hreason :
      failureReason
        (if is_udp_url ch.url then cfg.min_udp_download_speed
         else cfg.min_download_speed)
        (if is_udp_url ch.url then cfg.max_udp_latency
         else cfg.max_http_latency) 0 0 = "连接失败" := by
    unfold failureReason
    rw [if_neg (by simp), if_neg (not_lt.mpr hlat)]
  simp only [test_single_channel, hwl, hbl, Bool.false_eq_true, if_false,
    hr, handle_failure]
  exact ⟨trivial, contains_addUrl failed ch.url,
    bumpFail_self st.failed_ips (extract_ip_from_url ch.url), by rw [hreason]⟩

/-- C4 witness: the amended theorem at a concrete channel. -/
theorem c4_witness :
    (test_single_channel defaultConfig initState [] ["movie"] sampleChannel
        (ChanEvent.probe NetBehavior.headTimeout)).outcome =
      Outcome.offlineFail "连接失败" 0 0 :=
  (c4_timeout_is_connection_failed defaultConfig initState [] ["movie"]
    sampleChannel NetBehavior.headTimeout (by decide) (by decide) (by decide)
    (by decide)).2.2.2

/-- The channel of the C5 counterexample: its name matches the whitelist
entry case-insensitively, but not verbatim after lower-casing. -/
def c5Channel : Channel :=
  ⟨"CCTV1", "http://9.9.9.9/a", "未分类", none, "unknown", 0, 0⟩

/-- C5 counterexample: the channel name "CCTV1" matches the whitelist
entry "CCTV1" under case-insensitive comparison, yet the channel is NOT
short-circuited online: `_is_in_white_list` lower-cases only the channel
name and compares it verbatim against the entries, so "cctv1" is not
found in the whitelist, the probe runs (here it times out) and the
channel ends offline. -/
theorem c5_counterexample :
    spec_whitelist_match c5Channel.name ["CCTV1"] = true
      ∧ (test_single_channel_limited defaultConfig initState [] ["CCTV1"]
          c5Channel (ChanEvent.probe NetBehavior.headTimeout)).channel.status
          = "offline" := by
  decide

/-- C5 amended: a channel is short-circuited iff its LOWER-CASED name is
verbatim a member of the whitelist (so matching is case-insensitive in
the channel name only; whitelist entries must already be lower-case).
When it is, the channel becomes online and nothing else happens: no
probe outcome is consulted, the tester state (IP guard included) and the
failed-URL set are returned unchanged. -/
theorem c5_whitelist_short_circuit :
    ∀ (cfg : TesterConfig) (st : TesterState) (failed wl : List String)
      (ch : Channel) (ev : ChanEvent),
      is_in_white_list ch wl = true →
      test_single_channel cfg st failed wl ch ev =
        { state := st
          failed := failed
          channel := { ch with status := "online" }
          outcome := Outcome.whitelisted } := by
  intro cfg st failed wl ch ev h
  simp [test_single_channel, h]

/-- C5 witness: the amended theorem at a concrete channel with a
lower-case whitelist entry, under a probe that would fail. -/
theorem c5_witness :
    test_single_channel defaultConfig initState [] ["cctv1"] c5Channel
        (ChanEvent.probe NetBehavior.headTimeout) =
      { state := initState
        failed := []
        channel := { c5Channel with status := "online" }
        outcome := Outcome.whitelisted } :=
  c5_whitelist_short_circuit defaultConfig initState [] ["cctv1"] c5Channel
    (ChanEvent.probe NetBehavior.headTimeout) (by decide)

/-- C6: the failure reason of `_handle_failure` follows exactly the
claimed precedence — "速度不足" (insufficient speed) iff
`0 < speed < min_speed`, else "延迟过高" (latency exceeded) iff
`latency > max_latency`, else "连接失败" (connection failed) — with the
claim's three concrete instances, and `_handle_failure` uses this reason
with the channel's class thresholds while adding the URL to the failed
set, setting the channel offline and incrementing the host's counter. -/
theorem c6_failure_reason_precedence :
    ∀ (minS maxL s l : ℚ) (cfg : TesterConfig) (st : TesterState)
      (ch : Channel) (failed : List String),
      (0 < s → s < minS → failureReason minS maxL s l = "速度不足")
      ∧ (¬(0 < s ∧ s < minS) → maxL < l →
          failureReason minS maxL s l = "延迟过高")
      ∧ (¬(0 < s ∧ s < minS) → ¬(maxL < l) →
          failureReason minS maxL s l = "连接失败")
      ∧ failureReason 100 1000 10 50 = "速度不足"
      ∧ failureReason 100 1000 0 1500 = "延迟过高"
      ∧ failureReason 100 1000 0 0 = "连接失败"
      ∧ (handle_failure cfg st ch failed s l).outcome =
          Outcome.offlineFail
            (failureReason
              (if is_udp_url ch.url then cfg.min_udp_download_speed
               else cfg.min_download_speed)
              (if is_udp_url ch.url then cfg.max_udp_latency
               else cfg.max_http_latency) s l) s l
      ∧ (handle_failure cfg st ch failed s l).failed.contains ch.url = true
      ∧ (handle_failure cfg st ch failed s l).channel.status = "offline"
      ∧ (handle_failure cfg st ch failed s l).state.failed_ips
          (extract_ip_from_url ch.url)
          = st.failed_ips (extract_ip_from_url ch.url) + 1 := by
  intro minS maxL s l cfg st ch failed
  refine ⟨?_, ?_, ?_, by decide, by decide, by decide, rfl,
    contains_addUrl failed ch.url, rfl,
    bumpFail_self st.failed_ips (extract_ip_from_url ch.url)⟩
  · intro h1 h2
    unfold failureReason
    rw [if_pos ⟨h1, h2⟩]
  · intro h1 h2
    unfold failureReason
    rw [if_neg h1, if_pos h2]
  · intro h1 h2
    unfold failureReason
    rw [if_neg h1, if_neg h2]

/-- C6 witness: the precedence discharged at the claim's three concrete
inputs. -/
theorem c6_witness :
    failureReason 100 1000 10 50 = "速度不足"
      ∧ failureReason 100 1000 0 1500 = "延迟过高"
      ∧ failureReason 100 1000 0 0 = "连接失败" := by
  refine ⟨(c6_failure_reason_precedence 100 1000 10 50 defaultConfig
      initState sampleChannel []).1 (by norm_num) (by norm_num),
    (c6_failure_reason_precedence 100 1000 0 1500 defaultConfig initState
      sampleChannel []).2.1 (by norm_num) (by norm_num),
    (c6_failure_reason_precedence 100 1000 0 0 defaultConfig initState
      sampleChannel []).2.2.1 (by norm_num) (by norm_num)⟩

/-- C7 counterexample: the URL `http://9.9.9.9/live?x=/udp/1` has scheme
`http` and a path (`/live`) without any `/udp/` or `/rtp/` segment, yet
the code classifies it UDP-class, because the pattern `/(rtp|udp)/` is
searched over the WHOLE URL — here it matches inside the query string.
So "UDP-class iff scheme is udp/rtp or the path contains such a
segment" is false on the code. -/
theorem c7_counterexample :
    is_udp_url "http://9.9.9.9/live?x=/udp/1" = true
      ∧ spec_is_udp_class "http://9.9.9.9/live?x=/udp/1" = false := by
  decide

/-- C7 amended: a URL is UDP-class iff its lower-cased form starts with
`udp://` or `rtp://`, or contains the substring `/rtp/` or `/udp/`
ANYWHERE in the URL (path, query or elsewhere); the class selects the
probe's timeout, minimum-speed and maximum-latency thresholds, and the
selected maximum latency is what the latency phase enforces. -/
theorem c7_udp_class_selects_thresholds :
    ∀ (cfg : TesterConfig) (url : String) (s : Nat) (lat : ℚ)
      (g : GetBehavior),
      (is_udp_url url =
        (startsL "udp://".toList (lowerS url).toList ||
          startsL "rtp://".toList (lowerS url).toList ||
          (hasSub "/rtp/".toList (lowerS url).toList ||
            hasSub "/udp/".toList (lowerS url).toList)))
      ∧ classThresholds cfg url =
          (if is_udp_url url then
            (cfg.udp_timeout, cfg.min_udp_download_speed, cfg.max_udp_latency)
          else
            (cfg.http_timeout, cfg.min_download_speed, cfg.max_http_latency))
      ∧ ((classThresholds cfg url).2.2 < lat →
          unified_test cfg url (NetBehavior.headOk s lat g) =
            (false, 0, lat)) := by
  intro cfg url s lat g
  refine ⟨rfl, rfl, fun h => ?_⟩
  simp only [unified_test]
  rw [if_pos (Or.inl h)]

/-- C7 witness: the spec's end-to-end scenario B — a UDP-class URL with
measured latency 400 ms against the selected `max_udp_latency = 300`
fails the latency phase, and no throughput phase runs. -/
theorem c7_witness :
    unified_test defaultConfig "udp://10.0.0.5:1234"
        (NetBehavior.headOk 200 400 GetBehavior.getTimeout) =
      (false, 0, 400) :=
  (c7_udp_class_selects_thresholds defaultConfig "udp://10.0.0.5:1234" 200
    400 GetBehavior.getTimeout).2.2 (by decide)

/-- C8: the throughput phase reads the body in chunks (of at most 4 KiB
each), stops reading once the accumulated bytes reach the configured
maximum (later chunks never change the result, and the total overshoots
the cap by less than one chunk), computes
`speed = bytes / seconds / 1024`, succeeds iff `speed ≥ min_speed`, and
on the claim's example — ten 4 KiB chunks (40 KiB) in 0.2 s under a
100 KiB cap — yields exactly `(success, 200 KB/s)`. -/
theorem c8_throughput_computation :
    ∀ (maxDL k : Nat) (minS dur : ℚ) (sizes l1 l2 : List Nat),
      ((∀ c ∈ sizes, c ≤ k) → 0 < maxDL →
        readLoop maxDL 0 sizes < maxDL + k)
      ∧ (0 < maxDL → maxDL ≤ readLoop maxDL 0 l1 →
          readLoop maxDL 0 (l1 ++ l2) = readLoop maxDL 0 l1)
      ∧ (0 < dur → throughputPhase maxDL minS sizes dur =
          (decide (minS ≤ (readLoop maxDL 0 sizes : ℚ) / dur / 1024),
            (readLoop maxDL 0 sizes : ℚ) / dur / 1024))
      ∧ ((throughputPhase maxDL minS sizes dur).1 = true ↔
          minS ≤ (throughputPhase maxDL minS sizes dur).2)
      ∧ throughputPhase (100 * 1024) 100
          [4096, 4096, 4096, 4096, 4096, 4096, 4096, 4096, 4096, 4096]
          (1 / 5) = (true, 200) := by
  intro maxDL k minS dur sizes l1 l2
  refine ⟨fun hall h0 => readLoop_lt maxDL k sizes 0 hall h0,
    fun h0 hres => readLoop_stops maxDL l2 l1 0 h0 hres,
    fun hd => ?_, ?_, by norm_num [throughputPhase, readLoop]⟩
  · simp [throughputPhase, if_pos hd]
  · simp only [throughputPhase, decide_eq_true_iff]

/-- C8 witness: the cap and formula facts discharged at concrete
inputs — two 4 KiB chunks stay under cap + one chunk; a first chunk of
200 KiB already reaches the 100 KiB cap, so an appended chunk is never
read; the formula holds at duration 0.2 s. -/
theorem c8_witness :
    readLoop (100 * 1024) 0 [4096, 4096] < 100 * 1024 + 4096
      ∧ readLoop (100 * 1024) 0 ([204800] ++ [5]) =
          readLoop (100 * 1024) 0 [204800]
      ∧ throughputPhase (100 * 1024) 100 [4096, 4096] (1 / 5) =
          (decide ((100 : ℚ) ≤
              (readLoop (100 * 1024) 0 [4096, 4096] : ℚ) / (1 / 5) / 1024),
            (readLoop (100 * 1024) 0 [4096, 4096] : ℚ) / (1 / 5) / 1024) := by
  have T := c8_throughput_computation (100 * 1024) 4096 100 (1 / 5)
    [4096, 4096] [204800] [5]
  exact ⟨T.1 (by decide) (by decide), T.2.1 (by decide) (by decide),
    T.2.2.1 (by norm_num)⟩

/-- C9: the concurrency limit is clamped as claimed (`min(C, 30)` on
Windows, warning iff reduced; `max(1, min(C, 100))` otherwise, hence in
`[1, 100]`); along any trace the scheduler can generate, an admission
happens only when the active count is strictly below the limit, a
completion decrements the counter by exactly one, the active count never
exceeds the limit at any prefix, and a release from a saturated state
immediately re-enables an admission (the wakened waiter). -/
theorem c9_concurrency_ceiling :
    ∀ (c limit a n : Nat) (es : List SchedEv),
      clampConcurrency true c = min c 30
      ∧ clampConcurrency false c = max 1 (min c 100)
      ∧ 1 ≤ clampConcurrency false c
      ∧ clampConcurrency false c ≤ 100
      ∧ (windowsWarning c = true ↔ 30 < c)
      ∧ (validTrace limit a (SchedEv.acquire :: es) = true → a < limit)
      ∧ schedStep a SchedEv.release = a - 1
      ∧ schedStep a SchedEv.acquire = a + 1
      ∧ (a ≤ limit → validTrace limit a es = true →
          activeAfter a (es.take n) ≤ limit)
      ∧ (0 < limit →
          validTrace limit limit (SchedEv.release :: SchedEv.acquire :: es) =
            validTrace limit limit es) := by
  intro c limit a n es
  refine ⟨rfl, rfl, ?_, ?_, ?_, ?_, rfl, rfl,
    fun h1 h2 => validTrace_bound limit es a n h1 h2, ?_⟩
  · exact le_max_left 1 (min c 100)
  · exact max_le (by norm_num) (min_le_right c 100)
  · simp only [windowsWarning, decide_eq_true_eq]; omega
  · intro h
    simp only [validTrace, Bool.and_eq_true, decide_eq_true_eq] at h
    exact h.1
  · intro hl
    simp only [validTrace, Bool.and_eq_true, decide_eq_true_eq]
    have h2 : limit - 1 + 1 = limit := by omega
    simp [hl, Nat.sub_lt hl Nat.one_pos, h2]

/-- C9 witness: the invariant, the admission guard and the wake-up fact
discharged on concrete traces. -/
theorem c9_witness :
    activeAfter 0 ([SchedEv.acquire, SchedEv.release].take 2) ≤ 1
      ∧ (0 : Nat) < 2
      ∧ validTrace 1 1 [SchedEv.release, SchedEv.acquire] = validTrace 1 1 [] := by
  refine ⟨(c9_concurrency_ceiling 5 1 0 2
      [SchedEv.acquire, SchedEv.release]).2.2.2.2.2.2.2.2.1 (by decide)
      (by decide),
    (c9_concurrency_ceiling 5 2 0 0
      [SchedEv.release]).2.2.2.2.2.1 ?_,
    (c9_concurrency_ceiling 5 1 1 0
      ([] : List SchedEv)).2.2.2.2.2.2.2.2.2 (by decide)⟩
  decide
